import Mathlib

/-!
# Verification of the `loadconf` configuration loader

A shallow embedding of the `loadconf` Rust crate (files `src/lib.rs` and
`src/error.rs`).  The crate locates a configuration file for an application
name by scanning a fixed priority list of candidate paths, reads and
deserializes the first existing one, and falls back to the target type's
default value when none exists.

External collaborators (the operating system's home-directory lookup, the
filesystem, and the TOML deserializer) are modelled as explicit parameters:

* `Env` models `std::env::home_dir()`: an optional OS string, whose lossless
  conversion to UTF-8 (`OsString::into_string`) may itself fail.
* `FileSystem Handle` models the filesystem operations the crate uses:
  `Path::exists`, `File::open`, and `Read::read_to_string`.
* `ConfigType C` models the generic bound `C: Default + DeserializeOwned`
  together with `toml::from_str`: a default value and a fallible parser.

Fallible Rust functions returning `Result<_, Error>` become `Except Error _`;
the panicking entry points (`load`, `fallback_load`) return a `FatalResult`
that records either the produced value or the panic message that
`Result::expect` would construct.
-/

namespace Loadconf

/-- Models `std::ffi::OsString`.  The only operation the crate performs on it
is `into_string`, the lossless conversion to UTF-8, which fails when the
OS string is not valid UTF-8; the field records that conversion's result
(`some s` for `Ok(s)`, `none` for `Err(_)`). -/
structure OsString where
  intoString : Option String
deriving DecidableEq

/-- Models the process environment as seen by the crate: the result of
`std::env::home_dir()` (`None` when the home directory is unresolvable). -/
structure Env where
  home_dir : Option OsString
deriving DecidableEq

/-- Models `std::io::Error` abstractly by its debug representation, which is
all the crate ever extracts from it. -/
structure IOError where
  debug : String
deriving DecidableEq

/-- Models `toml::de::Error` abstractly by its debug representation, which is
all the crate ever extracts from it. -/
structure TomlDeError where
  debug : String
deriving DecidableEq

/-- The error type of `src/error.rs`: a tagged union distinguishing file
access failures from deserialization failures. -/
inductive Error where
  | File : IOError → Error
  | Deserialize : TomlDeError → Error
deriving DecidableEq

/-- Embeds `impl From<io::Error> for Error` from `src/error.rs`. -/
def Error.fromIo (err : IOError) : Error := Error.File err

/-- Embeds `impl From<toml::de::Error> for Error` from `src/error.rs`. -/
def Error.fromToml (err : TomlDeError) : Error := Error.Deserialize err

/-- The derived `Debug` representation of `Error`, used by `Result::expect`
when building a panic message. -/
def Error.debugRepr : Error → String
  | Error.File e => "File(" ++ e.debug ++ ")"
  | Error.Deserialize e => "Deserialize(" ++ e.debug ++ ")"

/-- Models the filesystem operations used by the crate, parameterized over an
abstract type of open file handles: `pathExists` models `Path::exists` (a
pure existence test on the current filesystem state; renamed because
`exists` is a Lean keyword), `openFile` models `File::open` (which may fail
with an I/O
error), and `Read::read_to_string` on an open handle (which may fail with an
I/O error and otherwise yields the file's full text). -/
structure FileSystem (Handle : Type) where
  pathExists : String → Bool
  openFile : String → Except IOError Handle
  read_to_string : Handle → Except IOError String

/-- Models the generic bound `C: Default + DeserializeOwned` together with the
TOML deserializer: `default` is `C::default()` and `from_str` is
`toml::from_str::<C>` (returning the parsed value or a parse diagnostic). -/
structure ConfigType (C : Type) where
  default : C
  from_str : String → Except TomlDeError C

/-- Embeds `path_list` from `src/lib.rs`: generate the ordered list of all the paths
to search for a configuration file.  Paths are plain strings built by
`format!`; the final conversion of each string to a `PathBuf` is the identity
in this model. -/
def path_list (env : Env) (name : String) : List String :=
  let relative_paths : List String :=
    [name, name ++ ".toml", "." ++ name, "." ++ name ++ ".toml"]
  let home : Option String := env.home_dir.bind OsString.intoString
  let home_paths : List String :=
    match home with
    | some home =>
        [home ++ "/." ++ name,
         home ++ "/." ++ name ++ ".toml",
         home ++ "/.config/" ++ name,
         home ++ "/.config/" ++ name ++ ".toml",
         home ++ "/.config/" ++ name ++ "/config",
         home ++ "/.config/" ++ name ++ "/config.toml"]
    | none => []
  let absolute_paths : List String :=
    ["/etc/.config/" ++ name,
     "/etc/.config/" ++ name ++ ".toml",
     "/etc/.config/" ++ name ++ "/config",
     "/etc/.config/" ++ name ++ "/config.toml"]
  relative_paths ++ home_paths ++ absolute_paths

/-- Embeds `read_from_file` from `src/lib.rs`: open the path, read its full contents
into a text buffer, and deserialize; each `?` lifts the underlying error into
`Error` through the `From` impls of `src/error.rs`. -/
def read_from_file {Handle C : Type} (fs : FileSystem Handle)
    (cfg : ConfigType C) (path : String) : Except Error C :=
  match fs.openFile path with
  | Except.error e => Except.error (Error.fromIo e)
  | Except.ok handle =>
    match fs.read_to_string handle with
    | Except.error e => Except.error (Error.fromIo e)
    | Except.ok text =>
      match cfg.from_str text with
      | Except.error e => Except.error (Error.fromToml e)
      | Except.ok value => Except.ok value

/-- Embeds `Load::try_fallback_load` from `src/lib.rs`: load from the given path, or,
when no path is given, search the enumerated candidates for the first
existing one, falling back to the default value when none exists.
`paths.iter().find(|p| p.exists())` is `List.find?` applied to the
existence test. -/
def try_fallback_load {Handle C : Type} (env : Env) (fs : FileSystem Handle)
    (cfg : ConfigType C) (filename : String) (path : Option String) :
    Except Error C :=
  match path with
  | some path => read_from_file fs cfg path
  | none =>
    let paths := path_list env filename
    match paths.find? (fun p => fs.pathExists p) with
    | some path => read_from_file fs cfg path
    | none => Except.ok cfg.default

/-- Embeds `Load::try_load` from `src/lib.rs`: search-mode load with no explicit
path. -/
def try_load {Handle C : Type} (env : Env) (fs : FileSystem Handle)
    (cfg : ConfigType C) (filename : String) : Except Error C :=
  try_fallback_load env fs cfg filename none

/-- Outcome of a panicking entry point: either the produced value or the
panic message. -/
inductive FatalResult (C : Type) where
  | value : C → FatalResult C
  | panicked : String → FatalResult C
deriving DecidableEq

/-- Embeds `Result::expect(msg)`: return the `Ok` value, or panic with a message
built from `msg` and the error's debug representation. -/
def expect {C : Type} (result : Except Error C) (msg : String) :
    FatalResult C :=
  match result with
  | Except.ok value => FatalResult.value value
  | Except.error e =>
      FatalResult.panicked (msg ++ ": " ++ Error.debugRepr e)

/-- Embeds `Load::load` from `src/lib.rs`: search-mode load that panics on error. -/
def load {Handle C : Type} (env : Env) (fs : FileSystem Handle)
    (cfg : ConfigType C) (filename : String) : FatalResult C :=
  expect (try_load env fs cfg filename)
    "Error reading configuration from file"

/-- Embeds `Load::fallback_load` from `src/lib.rs`: explicit-path-or-search load that
panics on error. -/
def fallback_load {Handle C : Type} (env : Env) (fs : FileSystem Handle)
    (cfg : ConfigType C) (filename : String) (path : Option String) :
    FatalResult C :=
  expect (try_fallback_load env fs cfg filename path)
    "Error reading configuration from file"

/-- C1: with a home directory resolving to `H`, `path_list` returns exactly
the 14 candidate paths of the documented priority list, in order, with the
name and `H` substituted; with an unresolvable home directory it returns
exactly the 8 remaining paths, entries 5-10 omitted, in the same relative
order. -/
theorem path_list_order (env : Env) (N H : String) :
    (env.home_dir.bind OsString.intoString = some H →
      path_list env N =
        [N, N ++ ".toml", "." ++ N, "." ++ N ++ ".toml",
         H ++ "/." ++ N, H ++ "/." ++ N ++ ".toml",
         H ++ "/.config/" ++ N, H ++ "/.config/" ++ N ++ ".toml",
         H ++ "/.config/" ++ N ++ "/config",
         H ++ "/.config/" ++ N ++ "/config.toml",
         "/etc/.config/" ++ N, "/etc/.config/" ++ N ++ ".toml",
         "/etc/.config/" ++ N ++ "/config",
         "/etc/.config/" ++ N ++ "/config.toml"]) ∧
    (env.home_dir.bind OsString.intoString = none →
      path_list env N =
        [N, N ++ ".toml", "." ++ N, "." ++ N ++ ".toml",
         "/etc/.config/" ++ N, "/etc/.config/" ++ N ++ ".toml",
         "/etc/.config/" ++ N ++ "/config",
         "/etc/.config/" ++ N ++ "/config.toml"]) := by
  constructor
  · intro h
    simp [path_list, h]
  · intro h
    simp [path_list, h]

/-- Witness for C1 at a concrete environment: home `/home/test`, name
`testcfg` (the repository's own unit test), and the unresolvable case. -/
theorem path_list_order_witness :
    path_list (Env.mk (some (OsString.mk (some "/home/test")))) "testcfg" =
      ["testcfg", "testcfg.toml", ".testcfg", ".testcfg.toml",
       "/home/test/.testcfg", "/home/test/.testcfg.toml",
       "/home/test/.config/testcfg", "/home/test/.config/testcfg.toml",
       "/home/test/.config/testcfg/config",
       "/home/test/.config/testcfg/config.toml",
       "/etc/.config/testcfg", "/etc/.config/testcfg.toml",
       "/etc/.config/testcfg/config", "/etc/.config/testcfg/config.toml"] ∧
    path_list (Env.mk none) "testcfg" =
      ["testcfg", "testcfg.toml", ".testcfg", ".testcfg.toml",
       "/etc/.config/testcfg", "/etc/.config/testcfg.toml",
       "/etc/.config/testcfg/config", "/etc/.config/testcfg/config.toml"] := by
  constructor
  · have h := (path_list_order (Env.mk (some (OsString.mk (some "/home/test"))))
      "testcfg" "/home/test").1 rfl
    simpa using h
  · have h := (path_list_order (Env.mk none) "testcfg" "x").2 rfl
    simpa using h

/-- Helper: `List.find?` returns the element at the first index satisfying the
predicate when all earlier indices fail it. -/
theorem find?_first_index {α : Type} (pred : α → Bool) (l : List α) (i : Nat)
    (hi : i < l.length) (hp : pred (l.get ⟨i, hi⟩) = true)
    (hb : ∀ x ∈ l.take i, pred x = false) :
    l.find? pred = some (l.get ⟨i, hi⟩) := by
  induction l generalizing i with
  | nil => exact absurd hi (Nat.not_lt_zero i)
  | cons a l ih =>
    cases i with
    | zero => exact List.find?_cons_of_pos l hp
    | succ i =>
      have ha : pred a = false := hb a (by simp)
      rw [List.find?_cons_of_neg _ (by simp [ha])]
      exact ih i (Nat.lt_of_succ_lt_succ hi) hp
        (fun x hx => hb x (by simpa using List.mem_cons_of_mem a hx))

/-- C2: in search mode, when the candidate at index `i` exists and every
earlier candidate does not, the result is produced by reading that candidate;
moreover the result is unchanged under any modification of the filesystem's
open/read behaviour away from that candidate, so no later existing candidate
is ever opened or read. -/
theorem search_reads_first_existing {Handle C : Type} (env : Env)
    (fs : FileSystem Handle) (cfg : ConfigType C) (name p : String) (i : Nat)
    (hi : i < (path_list env name).length)
    (hp : (path_list env name).get ⟨i, hi⟩ = p)
    (hex : fs.pathExists p = true)
    (hb : ∀ q ∈ (path_list env name).take i, fs.pathExists q = false) :
    try_fallback_load env fs cfg name none = read_from_file fs cfg p ∧
    ∀ (fs' : FileSystem Handle),
      fs'.pathExists = fs.pathExists →
      fs'.openFile p = fs.openFile p →
      fs'.read_to_string = fs.read_to_string →
      try_fallback_load env fs' cfg name none =
        try_fallback_load env fs cfg name none := by
  have hfind : (path_list env name).find? (fun q => fs.pathExists q) = some p := by
    subst hp
    exact find?_first_index (fun q => fs.pathExists q) (path_list env name) i hi
      hex hb
  constructor
  · simp [try_fallback_load, hfind]
  · intro fs' he ho hr
    have hfind' : (path_list env name).find? (fun q => fs'.pathExists q) = some p := by
      rw [he]; exact hfind
    have hsame : read_from_file fs' cfg p = read_from_file fs cfg p := by
      unfold read_from_file
      rw [ho, hr]
    simp [try_fallback_load, hfind, hfind', hsame]

/-- Witness for C2: with no home directory and only `.testcfg` (index 2) and
`/etc/.config/testcfg` (index 4) existing, the search reads `.testcfg`. -/
theorem search_reads_first_existing_witness :
    try_fallback_load (Env.mk none)
      (FileSystem.mk
        (fun q => q == ".testcfg" || q == "/etc/.config/testcfg")
        (fun _ => Except.ok ()) (fun _ => Except.ok "text"))
      (ConfigType.mk (0 : Nat) (fun _ => Except.ok 7)) "testcfg" none =
      read_from_file
        (FileSystem.mk
          (fun q => q == ".testcfg" || q == "/etc/.config/testcfg")
          (fun _ => Except.ok ()) (fun _ => Except.ok "text"))
        (ConfigType.mk (0 : Nat) (fun _ => Except.ok 7)) ".testcfg" := by
  have h := search_reads_first_existing (Env.mk none)
    (FileSystem.mk
      (fun q => q == ".testcfg" || q == "/etc/.config/testcfg")
      (fun _ => Except.ok ()) (fun _ => Except.ok "text"))
    (ConfigType.mk (0 : Nat) (fun _ => Except.ok 7)) "testcfg" ".testcfg" 2
    (by decide) (by decide) (by decide) (by decide)
  exact h.1

/-- C3: in search mode, when no enumerated candidate exists, the result is the
default value as a success, for both `try_load` and `try_fallback_load`. -/
theorem search_none_default {Handle C : Type} (env : Env)
    (fs : FileSystem Handle) (cfg : ConfigType C) (name : String)
    (h : ∀ p ∈ path_list env name, fs.pathExists p = false) :
    try_load env fs cfg name = Except.ok cfg.default ∧
    try_fallback_load env fs cfg name none = Except.ok cfg.default := by
  have hfind : (path_list env name).find? (fun p => fs.pathExists p) = none := by
    apply List.find?_eq_none.mpr
    intro x hx
    simp [h x hx]
  constructor <;> simp [try_load, try_fallback_load, hfind]

/-- Witness for C3: an empty filesystem yields the default value `5`. -/
theorem search_none_default_witness :
    try_load (Env.mk none)
      (FileSystem.mk (fun _ => false) (fun _ => Except.error (IOError.mk "enoent"))
        (fun _ : Unit => Except.error (IOError.mk "enoent")))
      (ConfigType.mk (5 : Nat) (fun _ => Except.ok 9)) "testcfg" =
      Except.ok 5 := by
  have h := search_none_default (Env.mk none)
    (FileSystem.mk (fun _ => false) (fun _ => Except.error (IOError.mk "enoent"))
      (fun _ : Unit => Except.error (IOError.mk "enoent")))
    (ConfigType.mk (5 : Nat) (fun _ => Except.ok 9)) "testcfg"
    (fun p _ => rfl)
  exact h.1

/-- C4: with an explicit path the loader goes straight to `read_from_file`;
the result is independent of the environment (so the enumerator's input is
never consulted), and a failing open or a failing read of the explicit path
yields a `File` access error, never the default value. -/
theorem explicit_path_no_enumeration {Handle C : Type} (env : Env)
    (fs : FileSystem Handle) (cfg : ConfigType C) (name p : String) :
    try_fallback_load env fs cfg name (some p) = read_from_file fs cfg p ∧
    (∀ env' : Env, try_fallback_load env' fs cfg name (some p) =
      try_fallback_load env fs cfg name (some p)) ∧
    (∀ e, fs.openFile p = Except.error e →
      try_fallback_load env fs cfg name (some p) =
        Except.error (Error.File e)) ∧
    (∀ hdl e, fs.openFile p = Except.ok hdl →
      fs.read_to_string hdl = Except.error e →
      try_fallback_load env fs cfg name (some p) =
        Except.error (Error.File e)) := by
  refine ⟨rfl, fun env' => rfl, fun e he => ?_, fun hdl e ho hr => ?_⟩
  · simp [try_fallback_load, read_from_file, he, Error.fromIo]
  · simp [try_fallback_load, read_from_file, ho, hr, Error.fromIo]

/-- Witness for C4: a missing explicit path errors even though a candidate for
the search name exists. -/
theorem explicit_path_no_enumeration_witness :
    try_fallback_load (Env.mk none)
      (FileSystem.mk (fun q => q == "testcfg")
        (fun q => if q == "testcfg" then Except.ok () else
          Except.error (IOError.mk "missing.toml not found"))
        (fun _ => Except.ok "text"))
      (ConfigType.mk (0 : Nat) (fun _ => Except.ok 7)) "testcfg"
      (some "missing.toml") =
      Except.error (Error.File (IOError.mk "missing.toml not found")) := by
  have h := explicit_path_no_enumeration (Env.mk none)
    (FileSystem.mk (fun q => q == "testcfg")
      (fun q => if q == "testcfg" then Except.ok () else
        Except.error (IOError.mk "missing.toml not found"))
      (fun _ => Except.ok "text"))
    (ConfigType.mk (0 : Nat) (fun _ => Except.ok 7)) "testcfg" "missing.toml"
  exact h.2.2.1 (IOError.mk "missing.toml not found") rfl

/-- C5: `read_from_file` fails with `Error.File e` exactly when opening or
reading fails with `e`, fails with `Error.Deserialize d` exactly when the
full text is read but parsing fails with diagnostic `d`, and returns `ok v`
exactly when the full text is read and parses to `v`; no other outcome
exists. -/
theorem read_from_file_algorithm {Handle C : Type} (fs : FileSystem Handle)
    (cfg : ConfigType C) (path : String) :
    (∀ e, read_from_file fs cfg path = Except.error (Error.File e) ↔
      (fs.openFile path = Except.error e ∨
        ∃ hdl, fs.openFile path = Except.ok hdl ∧
          fs.read_to_string hdl = Except.error e)) ∧
    (∀ d, read_from_file fs cfg path = Except.error (Error.Deserialize d) ↔
      ∃ hdl text, fs.openFile path = Except.ok hdl ∧
        fs.read_to_string hdl = Except.ok text ∧
        cfg.from_str text = Except.error d) ∧
    (∀ v, read_from_file fs cfg path = Except.ok v ↔
      ∃ hdl text, fs.openFile path = Except.ok hdl ∧
        fs.read_to_string hdl = Except.ok text ∧
        cfg.from_str text = Except.ok v) := by
  cases ho : fs.openFile path with
  | error e0 =>
    refine ⟨fun e => ?_, fun d => ?_, fun v => ?_⟩ <;>
      simp [read_from_file, ho, Error.fromIo, eq_comm]
  | ok hdl0 =>
    cases hr : fs.read_to_string hdl0 with
    | error e0 =>
      refine ⟨fun e => ?_, fun d => ?_, fun v => ?_⟩ <;>
        simp [read_from_file, ho, hr, Error.fromIo, eq_comm]
    | ok text0 =>
      cases hs : cfg.from_str text0 with
      | error d0 =>
        refine ⟨fun e => ?_, fun d => ?_, fun v => ?_⟩ <;>
          simp [read_from_file, ho, hr, hs, Error.fromIo, Error.fromToml, eq_comm]
      | ok v0 =>
        refine ⟨fun e => ?_, fun d => ?_, fun v => ?_⟩ <;>
          simp [read_from_file, ho, hr, hs, Error.fromIo, Error.fromToml, eq_comm]

/-- Witness for C5: a parse failure surfaces as `Error.Deserialize` carrying
the parser's diagnostic. -/
theorem read_from_file_algorithm_witness :
    read_from_file
      (FileSystem.mk (fun _ => true) (fun _ => Except.ok ())
        (fun _ => Except.ok "not toml"))
      (ConfigType.mk (0 : Nat)
        (fun _ => Except.error (TomlDeError.mk "expected key")))
      "given.toml" =
      Except.error (Error.Deserialize (TomlDeError.mk "expected key")) := by
  have h := read_from_file_algorithm
    (FileSystem.mk (fun _ => true) (fun _ => Except.ok ())
      (fun _ => Except.ok "not toml"))
    (ConfigType.mk (0 : Nat)
      (fun _ => Except.error (TomlDeError.mk "expected key")))
    "given.toml"
  exact (h.2.1 (TomlDeError.mk "expected key")).mpr
    ⟨(), "not toml", rfl, rfl, rfl⟩

/-- Helper: behaviour of `Result::expect` on each shape of its argument. -/
theorem expect_spec {C : Type} (r : Except Error C) (msg : String) :
    (∀ c, expect r msg = FatalResult.value c ↔ r = Except.ok c) ∧
    (∀ e, r = Except.error e →
      expect r msg = FatalResult.panicked (msg ++ ": " ++ Error.debugRepr e)) ∧
    ((∃ m, expect r msg = FatalResult.panicked m) ↔
      ∃ e, r = Except.error e) := by
  cases r with
  | ok c0 =>
    refine ⟨fun c => ?_, fun e he => ?_, ?_⟩ <;> simp [expect] at *
  | error e0 =>
    refine ⟨fun c => ?_, fun e he => ?_, ?_⟩
    · simp [expect]
    · obtain rfl : e0 = e := by simpa using he
      rfl
    · constructor
      · intro _; exact ⟨e0, rfl⟩
      · intro _; exact ⟨_, rfl⟩

/-- C6: the fatal entry points are strict wrappers over the fallible ones:
`load` returns exactly the value `try_load` produces when it succeeds and
panics with a message built from the error's debug representation exactly
when it fails; likewise `fallback_load` over `try_fallback_load`. -/
theorem fatal_wrappers {Handle C : Type} (env : Env) (fs : FileSystem Handle)
    (cfg : ConfigType C) (filename : String) (path : Option String) :
    (∀ c : C, load env fs cfg filename = FatalResult.value c ↔
      try_load env fs cfg filename = Except.ok c) ∧
    (∀ e, try_load env fs cfg filename = Except.error e →
      load env fs cfg filename = FatalResult.panicked
        ("Error reading configuration from file" ++ ": " ++ Error.debugRepr e)) ∧
    ((∃ m, load env fs cfg filename = FatalResult.panicked m) ↔
      ∃ e, try_load env fs cfg filename = Except.error e) ∧
    (∀ c : C, fallback_load env fs cfg filename path = FatalResult.value c ↔
      try_fallback_load env fs cfg filename path = Except.ok c) ∧
    (∀ e, try_fallback_load env fs cfg filename path = Except.error e →
      fallback_load env fs cfg filename path = FatalResult.panicked
        ("Error reading configuration from file" ++ ": " ++ Error.debugRepr e)) ∧
    ((∃ m, fallback_load env fs cfg filename path = FatalResult.panicked m) ↔
      ∃ e, try_fallback_load env fs cfg filename path = Except.error e) := by
  have h1 := expect_spec (try_load env fs cfg filename)
    "Error reading configuration from file"
  have h2 := expect_spec (try_fallback_load env fs cfg filename path)
    "Error reading configuration from file"
  exact ⟨h1.1, h1.2.1, h1.2.2, h2.1, h2.2.1, h2.2.2⟩

/-- Witness for C6: with an unreadable sole candidate, `try_load` fails with a
`File` error and `load` panics with the corresponding message. -/
theorem fatal_wrappers_witness :
    try_load (Env.mk none)
      (FileSystem.mk (fun q => q == "testcfg")
        (fun _ => Except.error (IOError.mk "boom"))
        (fun _ : Unit => Except.ok "text"))
      (ConfigType.mk (0 : Nat) (fun _ => Except.ok 7)) "testcfg" =
      Except.error (Error.File (IOError.mk "boom")) ∧
    load (Env.mk none)
      (FileSystem.mk (fun q => q == "testcfg")
        (fun _ => Except.error (IOError.mk "boom"))
        (fun _ : Unit => Except.ok "text"))
      (ConfigType.mk (0 : Nat) (fun _ => Except.ok 7)) "testcfg" =
      FatalResult.panicked
        ("Error reading configuration from file" ++ ": " ++
          Error.debugRepr (Error.File (IOError.mk "boom"))) := by
  have h := fatal_wrappers (Env.mk none)
    (FileSystem.mk (fun q => q == "testcfg")
      (fun _ => Except.error (IOError.mk "boom"))
      (fun _ : Unit => Except.ok "text"))
    (ConfigType.mk (0 : Nat) (fun _ => Except.ok 7)) "testcfg" none
  exact ⟨rfl, h.2.1 (Error.File (IOError.mk "boom")) rfl⟩

/-- C7: round trip — if `text` parses back to `v` and the first existing
candidate for name `N` holds exactly `text`, then `try_load N` returns `v`. -/
theorem round_trip {Handle C : Type} (env : Env) (fs : FileSystem Handle)
    (cfg : ConfigType C) (N p text : String) (v : C) (hdl : Handle)
    (hser : cfg.from_str text = Except.ok v)
    (hfirst : (path_list env N).find? (fun q => fs.pathExists q) = some p)
    (hopen : fs.openFile p = Except.ok hdl)
    (hread : fs.read_to_string hdl = Except.ok text) :
    try_load env fs cfg N = Except.ok v := by
  simp [try_load, try_fallback_load, hfirst, read_from_file, hopen, hread, hser]

/-- Witness for C7: a filesystem holding the serialization `var = 42` of the
value `42` at the first-selected candidate `.sample.toml` round-trips. -/
theorem round_trip_witness :
    try_load (Env.mk none)
      (FileSystem.mk (fun q => q == ".sample.toml")
        (fun q => if q == ".sample.toml" then Except.ok () else
          Except.error (IOError.mk "enoent"))
        (fun _ => Except.ok "var = 42"))
      (ConfigType.mk (0 : Nat)
        (fun s => if s == "var = 42" then Except.ok 42 else
          Except.error (TomlDeError.mk "bad")))
      "sample" = Except.ok 42 := by
  exact round_trip (Env.mk none)
    (FileSystem.mk (fun q => q == ".sample.toml")
      (fun q => if q == ".sample.toml" then Except.ok () else
        Except.error (IOError.mk "enoent"))
      (fun _ => Except.ok "var = 42"))
    (ConfigType.mk (0 : Nat)
      (fun s => if s == "var = 42" then Except.ok 42 else
        Except.error (TomlDeError.mk "bad")))
    "sample" ".sample.toml" "var = 42" 42 () rfl (by decide) rfl rfl

/-- C8: `path_list` is a pure function of the name and the home-directory
resolution: two environments whose home directories resolve to the same
optional string produce identical path lists, and no filesystem argument is
consulted at all (none is even in scope). -/
theorem path_list_deterministic (env env' : Env) (name : String)
    (h : env.home_dir.bind OsString.intoString =
      env'.home_dir.bind OsString.intoString) :
    path_list env name = path_list env' name := by
  unfold path_list
  rw [h]

/-- Witness for C8: an environment with a non-UTF-8 home OS string and one
with no home directory resolve identically, so their path lists coincide. -/
theorem path_list_deterministic_witness :
    path_list (Env.mk (some (OsString.mk none))) "sample" =
      path_list (Env.mk none) "sample" :=
  path_list_deterministic (Env.mk (some (OsString.mk none))) (Env.mk none)
    "sample" rfl

/-- C9: the six home-directory candidates appear (making the list 14 long
rather than 8) exactly when the home directory both resolves and converts
losslessly to UTF-8; a home directory that resolves but is not valid UTF-8
is treated exactly like an unresolvable one. -/
theorem home_entries_iff_utf8 (env : Env) (name : String) :
    ((path_list env name).length = 14 ↔
      ∃ os s, env.home_dir = some os ∧ os.intoString = some s) ∧
    ((env.home_dir.bind OsString.intoString).isSome = false →
      (path_list env name).length = 8) ∧
    (∀ os, env.home_dir = some os → os.intoString = none →
      path_list env name = path_list (Env.mk none) name) := by
  refine ⟨?_, ?_, ?_⟩
  · cases henv : env.home_dir with
    | none => simp [path_list, henv]
    | some os =>
      cases hos : os.intoString with
      | none => simp [path_list, henv, hos]
      | some s => simp [path_list, henv, hos]
  · intro h
    cases henv : env.home_dir with
    | none => simp [path_list, henv]
    | some os =>
      cases hos : os.intoString with
      | none => simp [path_list, henv, hos]
      | some s => rw [henv] at h; simp [hos] at h
  · intro os h1 h2
    simp [path_list, h1, h2]

/-- Witness for C9: a resolvable but non-UTF-8 home directory yields the same
8-entry list as no home directory at all. -/
theorem home_entries_iff_utf8_witness :
    (path_list (Env.mk (some (OsString.mk none))) "sample").length = 8 ∧
    path_list (Env.mk (some (OsString.mk none))) "sample" =
      path_list (Env.mk none) "sample" := by
  have h := home_entries_iff_utf8 (Env.mk (some (OsString.mk none))) "sample"
  exact ⟨h.2.1 rfl, h.2.2 (OsString.mk none) rfl rfl⟩

/-- C10: the application name is spliced verbatim into every candidate with
no validation or escaping; with the empty name the relative candidates are
`""`, `".toml"`, `"."` and `"..toml"`, so a search in which `""` and
`".toml"` do not exist but `"."` does (as the current directory always does)
selects `"."` as its first match and reads from it. -/
theorem name_spliced_verbatim {Handle C : Type} (env : Env)
    (fs : FileSystem Handle) (cfg : ConfigType C) (name : String) :
    (path_list env name).take 4 =
      [name, name ++ ".toml", "." ++ name, "." ++ name ++ ".toml"] ∧
    (path_list env "").take 4 = ["", ".toml", ".", "..toml"] ∧
    (fs.pathExists "" = false → fs.pathExists ".toml" = false →
      fs.pathExists "." = true →
      (path_list env "").find? (fun q => fs.pathExists q) = some "." ∧
      try_fallback_load env fs cfg "" none = read_from_file fs cfg ".") := by
  have htake : ∀ n : String, (path_list env n).take 4 =
      [n, n ++ ".toml", "." ++ n, "." ++ n ++ ".toml"] := by
    intro n
    cases h : env.home_dir.bind OsString.intoString with
    | none => simp [path_list, h]
    | some s => simp [path_list, h]
  refine ⟨htake name, ?_, ?_⟩
  · rw [htake ""]
    decide
  · intro h1 h2 h3
    have e1 : ("" : String) ++ ".toml" = ".toml" := rfl
    have e2 : ("." : String) ++ "" = "." := rfl
    have hfind : (path_list env "").find? (fun q => fs.pathExists q) =
        some "." := by
      cases h : env.home_dir.bind OsString.intoString with
      | none => simp [path_list, h, e1, e2, h1, h2, h3]
      | some s => simp [path_list, h, e1, e2, h1, h2, h3]
    exact ⟨hfind, by simp [try_fallback_load, hfind]⟩

/-- Witness for C10: with the empty application name and a filesystem in
which only `"."` exists among the first candidates, the search selects
`"."`. -/
theorem name_spliced_verbatim_witness :
    try_fallback_load (Env.mk none)
      (FileSystem.mk (fun q => q == ".")
        (fun _ => Except.ok ()) (fun _ : Unit => Except.error (IOError.mk "eisdir")))
      (ConfigType.mk (0 : Nat) (fun _ => Except.ok 7)) "" none =
      read_from_file
        (FileSystem.mk (fun q => q == ".")
          (fun _ => Except.ok ()) (fun _ : Unit => Except.error (IOError.mk "eisdir")))
        (ConfigType.mk (0 : Nat) (fun _ => Except.ok 7)) "." := by
  have h := name_spliced_verbatim (Env.mk none)
    (FileSystem.mk (fun q => q == ".")
      (fun _ => Except.ok ()) (fun _ : Unit => Except.error (IOError.mk "eisdir")))
    (ConfigType.mk (0 : Nat) (fun _ => Except.ok 7)) "sample"
  exact (h.2.2 rfl rfl rfl).2

end Loadconf
